import Mathlib

/-!
Formal verification of the fusion-plus-stellar HTLC escrow contracts.

Shallow embedding of the Soroban contracts:
  - `contracts/swap/src/lib.rs`   (SwapContract: create_escrow, withdraw, cancel)
  - `contracts/swap/src/types.rs` (Immutables, EscrowState)
  - `contracts/swap/src/timelock.rs` (Timelock predicates)
  - `contracts/swap/src/hashlock.rs` (create_hashlock)
  - `contracts/token/src/lib.rs`  (Token: transfer)

Modelling conventions:
  - Soroban `Address` values are modelled as `Nat`; Soroban `String` as `String`.
  - `i128` amounts and balances are modelled as `Int` (no claim under
    consideration depends on 128-bit overflow behaviour), `u64` ledger
    timestamps as `Nat`.
  - Soroban persistent storage is modelled as function maps; a contract
    invocation is a transaction, so an entry point is a function
    `World → Except SwapErr (World × result)`: a Rust `panic` or a trap in a
    cross-contract subcall aborts the transaction and rolls back every
    storage write and event, which the `Except.error` branch models by
    returning no new world.  The `exec*` wrappers make the rollback
    explicit: on error the caller observes the unchanged pre-state.
  - `env.current_contract_address()` is the explicit parameter `this`;
    `env.ledger().timestamp()` is the explicit parameter `t`;
    `require_auth` is modelled by an authorization environment
    `auths : Addr → Bool` carried by the `Env` in the source.  `withdraw`
    receives the environment but — exactly like the source — never consults
    it.
-/

abbrev Addr := Nat

/-- `types.rs` `Immutables`: the per-escrow record, written at creation. -/
structure Immutables where
  maker : Addr
  taker : Addr
  token : Addr
  amount : Int
  hashlock : String
  timelock_start : Nat
  timelock_end : Nat
deriving DecidableEq

/-- `types.rs` `EscrowState`. -/
inductive EscrowState where
  | Active
  | Withdrawn
  | Cancelled
deriving DecidableEq

/-- Events published by the swap contract (`events.rs` / `lib.rs`). -/
inductive Event where
  | escrow_created (escrow_id : String) (maker taker token : Addr) (amount : Int)
  | escrow_withdrawn (escrow_id : String) (taker : Addr) (amount : Int) (secret : String)
  | escrow_cancelled (escrow_id : String) (maker : Addr) (amount : Int)
deriving DecidableEq

/-- Persistent storage of the token contract (`contracts/token/src/lib.rs`):
`DataKey::Balance(addr)` entries (absent keys read as 0, per
`unwrap_or(0)` in `Token::balance`) and `DataKey::TotalSupply`. -/
structure TokenState where
  balances : Addr → Int
  totalSupply : Int

inductive TokenErr where
  | InsufficientBalance
deriving DecidableEq

/-- `Token::transfer` from `contracts/token/src/lib.rs` lines 64-81.
The source reads `from_balance` and `to_balance` BEFORE either write, then
performs two sequential `set` calls: first `Balance(from)`, then
`Balance(to)`.  When `from = to` the second write shadows the first, which
the single merged map below reproduces by testing `to` first.
`from.require_auth()` is an assertion against the ambient authorization
environment and is not part of the balance logic modelled here. -/
def Token.transfer (st : TokenState) (from_ to_ : Addr) (amount : Int) :
    Except TokenErr TokenState :=
  let from_balance := st.balances from_
  if from_balance < amount then
    .error .InsufficientBalance
  else
    let to_balance := st.balances to_
    .ok { st with balances := fun a =>
            if a = to_ then to_balance + amount
            else if a = from_ then from_balance - amount
            else st.balances a }

/-- Escrow-side persistent storage (`DataKey::Escrow` and
`DataKey::EscrowState` maps from `types.rs`). -/
structure SwapState where
  escrows : String → Option Immutables
  states : String → Option EscrowState

/-- The full observable state a swap-contract invocation runs against:
escrow storage, the token ledgers (one `TokenState` per token address),
and the published event stream. -/
structure World where
  swap : SwapState
  tokens : Addr → TokenState
  events : List Event

/-- The distinct abort causes of the swap entry points.  In the source each
is an unconditional Rust `panic` (or an `unwrap` on a missing key, or a
trapped subcall), which aborts the transaction. -/
inductive SwapErr where
  | missingEntry
  | notActive
  | outsideWindow
  | invalidSecret
  | timelockNotExpired
  | unauthorized
  | transferFailed (e : TokenErr)
deriving DecidableEq

/-- `generate_escrow_id` from `lib.rs` lines 166-169: ignores every argument
and returns the constant string `"escrow_"`. -/
def generate_escrow_id (_maker _taker _token : Addr) (_amount : Int) : String :=
  "escrow_"

/-- `verify_hashlock` from `lib.rs` lines 171-174: plain string equality of
secret and stored hashlock. -/
def verify_hashlock (hashlock secret : String) : Bool :=
  secret == hashlock

/-- `create_hashlock` from `hashlock.rs` lines 18-21: returns the secret
itself as the commitment. -/
def create_hashlock (secret : String) : String :=
  secret

/-- The timelock guard of `SwapContract::withdraw` (`lib.rs` line 90):
`current_time < timelock_start || current_time > timelock_end`. -/
def outside_timelock_window (imm : Immutables) (t : Nat) : Bool :=
  decide (t < imm.timelock_start) || decide (t > imm.timelock_end)

/-- The timelock guard of `SwapContract::cancel` (`lib.rs` line 132):
`current_time <= timelock_end`. -/
def cancel_timelock_not_expired (imm : Immutables) (t : Nat) : Bool :=
  decide (t ≤ imm.timelock_end)

/-- `SwapContract::create_escrow` (`lib.rs` lines 32-71).  Requires the
maker's authorization, stores the record and `Active` state under the
generated id with unconditional `set` calls (overwriting any previous
entry), then transfers `amount` from the maker into contract custody and
publishes `escrow_created`.  No validation of `amount` or of the timelock
ordering is performed. -/
def create_escrow (auths : Addr → Bool) (this : Addr) (w : World)
    (maker taker token : Addr) (amount : Int) (hashlock : String)
    (timelock_start timelock_end : Nat) : Except SwapErr (World × String) :=
  if !auths maker then .error .unauthorized else
  let escrow_id := generate_escrow_id maker taker token amount
  let immutables : Immutables :=
    { maker := maker, taker := taker, token := token, amount := amount,
      hashlock := hashlock, timelock_start := timelock_start,
      timelock_end := timelock_end }
  match Token.transfer (w.tokens token) maker this amount with
  | .error e => .error (.transferFailed e)
  | .ok tst =>
      .ok ({ swap :=
               { escrows := fun k =>
                   if k = escrow_id then some immutables else w.swap.escrows k,
                 states := fun k =>
                   if k = escrow_id then some .Active else w.swap.states k },
             tokens := fun a => if a = token then tst else w.tokens a,
             events := w.events ++
               [.escrow_created escrow_id maker taker token amount] },
           escrow_id)

/-- `SwapContract::withdraw` (`lib.rs` lines 74-113).  Loads record and
state (trapping when absent), checks `Active`, the timelock window and the
hashlock — all before any effect — then transfers `amount` from contract
custody to the stored taker, sets the state to `Withdrawn` and publishes
`escrow_withdrawn`.  The source contains no `require_auth`: the
authorization environment is received and ignored. -/
def withdraw (_auths : Addr → Bool) (this : Addr) (t : Nat) (w : World)
    (escrow_id secret : String) : Except SwapErr (World × Bool) :=
  match w.swap.escrows escrow_id with
  | none => .error .missingEntry
  | some immutables =>
  match w.swap.states escrow_id with
  | none => .error .missingEntry
  | some state =>
  if state ≠ EscrowState.Active then .error .notActive else
  if outside_timelock_window immutables t then .error .outsideWindow else
  if !verify_hashlock immutables.hashlock secret then .error .invalidSecret else
  match Token.transfer (w.tokens immutables.token) this immutables.taker
      immutables.amount with
  | .error e => .error (.transferFailed e)
  | .ok tst =>
      .ok ({ swap :=
               { escrows := w.swap.escrows,
                 states := fun k =>
                   if k = escrow_id then some .Withdrawn else w.swap.states k },
             tokens := fun a =>
               if a = immutables.token then tst else w.tokens a,
             events := w.events ++
               [.escrow_withdrawn escrow_id immutables.taker immutables.amount
                  secret] },
           true)

/-- `SwapContract::cancel` (`lib.rs` lines 116-153).  Loads record and
state, checks `Active`, requires strict timelock expiry (`t > end`) and the
maker's authorization — all before any effect — then transfers `amount`
back to the maker, sets the state to `Cancelled` and publishes
`escrow_cancelled`. -/
def cancel (auths : Addr → Bool) (this : Addr) (t : Nat) (w : World)
    (escrow_id : String) : Except SwapErr (World × Bool) :=
  match w.swap.escrows escrow_id with
  | none => .error .missingEntry
  | some immutables =>
  match w.swap.states escrow_id with
  | none => .error .missingEntry
  | some state =>
  if state ≠ EscrowState.Active then .error .notActive else
  if cancel_timelock_not_expired immutables t then .error .timelockNotExpired else
  if !auths immutables.maker then .error .unauthorized else
  match Token.transfer (w.tokens immutables.token) this immutables.maker
      immutables.amount with
  | .error e => .error (.transferFailed e)
  | .ok tst =>
      .ok ({ swap :=
               { escrows := w.swap.escrows,
                 states := fun k =>
                   if k = escrow_id then some .Cancelled else w.swap.states k },
             tokens := fun a =>
               if a = immutables.token then tst else w.tokens a,
             events := w.events ++
               [.escrow_cancelled escrow_id immutables.maker immutables.amount] },
           true)

/-- Transactional semantics of a `withdraw` invocation: an abort rolls the
world back to the pre-state. -/
def execWithdraw (auths : Addr → Bool) (this : Addr) (t : Nat) (w : World)
    (escrow_id secret : String) : World × Except SwapErr Bool :=
  match withdraw auths this t w escrow_id secret with
  | .ok (w', b) => (w', .ok b)
  | .error e => (w, .error e)

/-- Transactional semantics of a `cancel` invocation: an abort rolls the
world back to the pre-state. -/
def execCancel (auths : Addr → Bool) (this : Addr) (t : Nat) (w : World)
    (escrow_id : String) : World × Except SwapErr Bool :=
  match cancel auths this t w escrow_id with
  | .ok (w', b) => (w', .ok b)
  | .error e => (w, .error e)

/-- `timelock.rs` `Timelock` (field `end` is a Lean keyword, rendered
`end_`). -/
structure Timelock where
  start : Nat
  end_ : Nat
deriving DecidableEq

/-- `Timelock::is_active`: `current_time >= start && current_time <= end`. -/
def Timelock.is_active (tl : Timelock) (t : Nat) : Bool :=
  decide (t ≥ tl.start) && decide (t ≤ tl.end_)

/-- `Timelock::is_expired`: `current_time > end`. -/
def Timelock.is_expired (tl : Timelock) (t : Nat) : Bool :=
  decide (t > tl.end_)

/-- `Timelock::is_before_start`: `current_time < start`. -/
def Timelock.is_before_start (tl : Timelock) (t : Nat) : Bool :=
  decide (t < tl.start)

/-! ### Concrete fixtures used by witnesses and counterexamples -/

/-- Authorization environment in which every address is authorized. -/
def allAuth : Addr → Bool := fun _ => true

/-- Authorization environment in which no address is authorized. -/
def noAuth : Addr → Bool := fun _ => false

/-- A sample escrow record: maker 1, taker 2, token 3, amount 50,
timelock window [4, 10]. -/
def imm0 : Immutables :=
  { maker := 1, taker := 2, token := 3, amount := 50, hashlock := "s3cret",
    timelock_start := 4, timelock_end := 10 }

/-- Token ledger in which addresses 1, 4 and 99 each hold 1000. -/
def richLedger : TokenState :=
  { balances := fun a =>
      if a = 1 then 1000 else if a = 4 then 1000 else if a = 99 then 1000 else 0,
    totalSupply := 3000 }

/-- Token ledger in which every balance is zero. -/
def poorLedger : TokenState :=
  { balances := fun _ => 0, totalSupply := 0 }

/-- World with empty escrow storage and a rich ledger for every token. -/
def world0 : World :=
  { swap := { escrows := fun _ => none, states := fun _ => none },
    tokens := fun _ => richLedger, events := [] }

/-- World holding `imm0` under id `"esc"` in `Active` state, rich ledgers. -/
def worldActive : World :=
  { swap := { escrows := fun k => if k = "esc" then some imm0 else none,
              states := fun k => if k = "esc" then some .Active else none },
    tokens := fun _ => richLedger, events := [] }

/-- World holding `imm0` under id `"esc"` already `Withdrawn`. -/
def worldTerminal : World :=
  { swap := { escrows := fun k => if k = "esc" then some imm0 else none,
              states := fun k => if k = "esc" then some .Withdrawn else none },
    tokens := fun _ => richLedger, events := [] }

/-- World holding `imm0` under id `"esc"` in `Active` state, but with empty
token ledgers, so the custody transfer out of the contract must fail. -/
def worldPoor : World :=
  { swap := { escrows := fun k => if k = "esc" then some imm0 else none,
              states := fun k => if k = "esc" then some .Active else none },
    tokens := fun _ => poorLedger, events := [] }

/-- Token ledger for the self-transfer experiment: address 1 holds 10. -/
def selfLedger : TokenState :=
  { balances := fun a => if a = 1 then 10 else 0, totalSupply := 10 }

/-- The id returned by a `create_escrow` invocation, when it succeeded. -/
def returnedId (r : Except SwapErr (World × String)) : Option String :=
  r.toOption.map Prod.snd

/-- The record stored under `id` after a `create_escrow` invocation, when it
succeeded. -/
def storedRecord (r : Except SwapErr (World × String)) (id : String) :
    Option (Option Immutables) :=
  r.toOption.map fun p => p.1.swap.escrows id

/-- The state stored under `id` after a `create_escrow` invocation, when it
succeeded. -/
def storedState (r : Except SwapErr (World × String)) (id : String) :
    Option (Option EscrowState) :=
  r.toOption.map fun p => p.1.swap.states id

/-- The world produced by a successful `create_escrow` invocation. -/
def createdWorld (r : Except SwapErr (World × String)) : Option World :=
  r.toOption.map Prod.fst

/-! ### Claim C5: timelock window predicates -/

/-- Claim C5: for every timelock window (ordered, `start ≤ end` per the data
model) and every time `t`, the three predicates satisfy their stated
characterisations — `is_before_start t` iff `t < start`, `is_active t` iff
`start ≤ t ≤ end`, `is_expired t` iff `t > end` — and exactly one of them
is true. -/
theorem timelock_predicates_exclusive_exhaustive (tl : Timelock) (t : Nat)
    (h : tl.start ≤ tl.end_) :
    ((tl.is_before_start t = true ↔ t < tl.start) ∧
     (tl.is_active t = true ↔ tl.start ≤ t ∧ t ≤ tl.end_) ∧
     (tl.is_expired t = true ↔ tl.end_ < t)) ∧
    ((tl.is_before_start t = true ∧ tl.is_active t = false ∧
        tl.is_expired t = false) ∨
     (tl.is_before_start t = false ∧ tl.is_active t = true ∧
        tl.is_expired t = false) ∨
     (tl.is_before_start t = false ∧ tl.is_active t = false ∧
        tl.is_expired t = true)) := by
  constructor
  · refine ⟨?_, ?_, ?_⟩ <;>
      simp [Timelock.is_before_start, Timelock.is_active, Timelock.is_expired]
  · simp only [Timelock.is_before_start, Timelock.is_active, Timelock.is_expired,
      Bool.and_eq_true, decide_eq_true_eq, decide_eq_false_iff_not,
      Bool.and_eq_false_iff]
    omega

/-- Witness for C5 at the window `[4, 10]` and time `t = 7`. -/
theorem timelock_predicates_exclusive_exhaustive_witness :
    (Timelock.mk 4 10).start ≤ (Timelock.mk 4 10).end_ ∧
    ((((Timelock.mk 4 10).is_before_start 7 = true ↔ (7:Nat) < (Timelock.mk 4 10).start) ∧
      ((Timelock.mk 4 10).is_active 7 = true ↔
        (Timelock.mk 4 10).start ≤ 7 ∧ (7:Nat) ≤ (Timelock.mk 4 10).end_) ∧
      ((Timelock.mk 4 10).is_expired 7 = true ↔ (Timelock.mk 4 10).end_ < 7)) ∧
     (((Timelock.mk 4 10).is_before_start 7 = true ∧
         (Timelock.mk 4 10).is_active 7 = false ∧
         (Timelock.mk 4 10).is_expired 7 = false) ∨
      ((Timelock.mk 4 10).is_before_start 7 = false ∧
         (Timelock.mk 4 10).is_active 7 = true ∧
         (Timelock.mk 4 10).is_expired 7 = false) ∨
      ((Timelock.mk 4 10).is_before_start 7 = false ∧
         (Timelock.mk 4 10).is_active 7 = false ∧
         (Timelock.mk 4 10).is_expired 7 = true))) :=
  ⟨by decide, timelock_predicates_exclusive_exhaustive (Timelock.mk 4 10) 7 (by decide)⟩

/-! ### Claim C7: hashlock round trip -/

/-- Claim C7: `verify_hashlock (create_hashlock s) s` is true for every
secret `s`, and false for every candidate distinct from `s` (the stubbed
commitment is the identity, so the round trip is exact, not merely
probabilistic). -/
theorem hashlock_roundtrip :
    (∀ s : String, verify_hashlock (create_hashlock s) s = true) ∧
    (∀ s s' : String, s' ≠ s →
      verify_hashlock (create_hashlock s) s' = false) := by
  constructor
  · intro s
    simp [verify_hashlock, create_hashlock]
  · intro s s' h
    simp [verify_hashlock, create_hashlock, h]

/-- Witness for C7 with secret `"s3cret"` and wrong candidate `"wrong"`. -/
theorem hashlock_roundtrip_witness :
    verify_hashlock (create_hashlock "s3cret") "s3cret" = true ∧
    ("wrong" ≠ "s3cret") ∧
    verify_hashlock (create_hashlock "s3cret") "wrong" = false :=
  ⟨hashlock_roundtrip.1 "s3cret", by decide,
   hashlock_roundtrip.2 "s3cret" "wrong" (by decide)⟩

/-! ### Claim C6: behaviour at the boundary `t = timelock_end` -/

/-- Claim C6: at `t = timelock_end` the `withdraw` window guard passes
(inclusive upper bound) while `cancel` fails with `Timelock not expired`
(strict `t > timelock_end` required); moreover the claim window
(`outside_timelock_window = false`) and the reclaim window
(`cancel_timelock_not_expired = false`) never overlap satisfied together and
cover every time from `timelock_start` on — adjacent with no overlap and no
gap. -/
theorem boundary_windows_adjacent (imm : Immutables)
    (h : imm.timelock_start ≤ imm.timelock_end) :
    outside_timelock_window imm imm.timelock_end = false ∧
    cancel_timelock_not_expired imm imm.timelock_end = true ∧
    (∀ auths : Addr → Bool, ∀ this : Addr, ∀ w : World, ∀ id : String,
      w.swap.escrows id = some imm → w.swap.states id = some .Active →
      cancel auths this imm.timelock_end w id = .error .timelockNotExpired) ∧
    (∀ t : Nat, ¬(outside_timelock_window imm t = false ∧
        cancel_timelock_not_expired imm t = false)) ∧
    (∀ t : Nat, imm.timelock_start ≤ t →
      outside_timelock_window imm t = false ∨
        cancel_timelock_not_expired imm t = false) := by
  refine ⟨?_, ?_, ?_, ?_, ?_⟩
  · simpa [outside_timelock_window] using h
  · simp [cancel_timelock_not_expired]
  · intro auths this w id h1 h2
    unfold cancel
    rw [h1, h2]
    simp [cancel_timelock_not_expired]
  · intro t
    simp [outside_timelock_window, cancel_timelock_not_expired]
  · intro t ht
    simp [outside_timelock_window, cancel_timelock_not_expired]
    omega

/-- Witness for C6 at the record `imm0` (window `[4, 10]`): the boundary
facts at `t = 10`, a concrete `cancel` rejection at the boundary on an
`Active` escrow, no overlap at `t = 7`, and no gap at `t = 20`. -/
theorem boundary_windows_adjacent_witness :
    imm0.timelock_start ≤ imm0.timelock_end ∧
    outside_timelock_window imm0 imm0.timelock_end = false ∧
    cancel_timelock_not_expired imm0 imm0.timelock_end = true ∧
    cancel allAuth 99 imm0.timelock_end worldActive "esc" =
      .error .timelockNotExpired ∧
    ¬(outside_timelock_window imm0 7 = false ∧
        cancel_timelock_not_expired imm0 7 = false) ∧
    (outside_timelock_window imm0 20 = false ∨
        cancel_timelock_not_expired imm0 20 = false) := by
  have hth := boundary_windows_adjacent imm0 (by decide)
  exact ⟨by decide, hth.1, hth.2.1,
    hth.2.2.1 allAuth 99 worldActive "esc" rfl rfl,
    hth.2.2.2.1 7, hth.2.2.2.2 20 (by decide)⟩

/-! ### Claim C3: escrow-id generation (code bug: constant id) -/

/-- Claim C3 (code bug evaluation): two successive successful `create_escrow`
calls — with different makers, amounts, hashlocks and windows — both return
the very same id `"escrow_"`, because `generate_escrow_id` ignores all of
its arguments; returned ids are therefore never pairwise distinct. -/
theorem create_escrow_ids_collide :
    returnedId (create_escrow allAuth 99 world0 1 2 3 100 "h1" 4 10) =
      some "escrow_" ∧
    ((create_escrow allAuth 99 world0 1 2 3 100 "h1" 4 10).toOption.bind
        fun r => returnedId (create_escrow allAuth 99 r.1 4 2 3 7 "h2" 0 20)) =
      some "escrow_" ∧
    (∀ (auths : Addr → Bool) (this : Addr) (w : World)
        (maker taker token : Addr) (amount : Int) (hashlock : String)
        (s e : Nat),
      returnedId (create_escrow auths this w maker taker token amount
          hashlock s e) = none ∨
      returnedId (create_escrow auths this w maker taker token amount
          hashlock s e) = some "escrow_") := by
  refine ⟨rfl, rfl, ?_⟩
  intro auths this w maker taker token amount hashlock s e
  unfold create_escrow returnedId generate_escrow_id
  by_cases ha : auths maker
  · simp only [ha, Bool.not_true, Bool.false_eq_true, if_false]
    cases Token.transfer (w.tokens token) maker this amount with
    | error e => exact Or.inl rfl
    | ok tst => exact Or.inr rfl
  · rw [Bool.not_eq_true] at ha
    rw [ha]
    exact Or.inl rfl

/-! ### Claim C4: storage under an existing id (code bug: silent overwrite) -/

/-- Claim C4 (code bug evaluation): after a first successful `create_escrow`
the id `"escrow_"` holds the amount-100 record; a second successful
`create_escrow` — which generates the same id — does not fail: it silently
replaces the stored record with the new amount-7 record (and resets the
state to `Active`), because the storage `set` calls never check for an
existing entry. -/
theorem create_escrow_overwrites_record :
    storedRecord (create_escrow allAuth 99 world0 1 2 3 100 "h1" 4 10)
      "escrow_" = some (some
        { maker := 1, taker := 2, token := 3, amount := 100, hashlock := "h1",
          timelock_start := 4, timelock_end := 10 }) ∧
    ((create_escrow allAuth 99 world0 1 2 3 100 "h1" 4 10).toOption.bind
        fun r => storedRecord (create_escrow allAuth 99 r.1 4 2 3 7 "h2" 0 20)
          "escrow_") = some (some
        { maker := 4, taker := 2, token := 3, amount := 7, hashlock := "h2",
          timelock_start := 0, timelock_end := 20 }) := by
  exact ⟨rfl, rfl⟩

/-! ### Claim C9: token transfer semantics (code bug: self-transfer mints) -/

/-- Claim C9 (code bug evaluation): in a ledger where address 1 holds 10,
`transfer(1, 1, 5)` succeeds and leaves address 1 with balance 15 — the
recipient balance is read before the sender debit is written and the credit
write shadows the debit — while the stored total supply stays 10.  A debit
of exactly 5 and a credit of exactly 5 on the same account would leave the
balance at 10, so the sum of balances no longer matches the total supply. -/
theorem token_self_transfer_mints :
    (Token.transfer selfLedger 1 1 5).toOption.map (fun st => st.balances 1) =
      some 15 ∧
    (Token.transfer selfLedger 1 1 5).toOption.map TokenState.totalSupply =
      some 10 ∧
    (15 : Int) ≠ 10 - 5 + 5 := by
  exact ⟨rfl, rfl, by decide⟩

/-! ### Claim C8: parameter validation in `create_escrow` -/

/-- Claim C8 counterexample: `create_escrow` with `amount = 0` and
`timelock_start = 5 > timelock_end = 3` does not fail with any
parameter error — it succeeds and persists the record and the `Active`
state, refuting «create_escrow succeeds only when amount > 0 and
timelock_start <= timelock_end». -/
theorem create_escrow_accepts_invalid_params :
    (create_escrow allAuth 99 world0 1 2 3 0 "h" 5 3).isOk = true ∧
    storedRecord (create_escrow allAuth 99 world0 1 2 3 0 "h" 5 3)
      "escrow_" = some (some
        { maker := 1, taker := 2, token := 3, amount := 0, hashlock := "h",
          timelock_start := 5, timelock_end := 3 }) ∧
    storedState (create_escrow allAuth 99 world0 1 2 3 0 "h" 5 3)
      "escrow_" = some (some .Active) := by
  exact ⟨rfl, rfl, rfl⟩

/-- Claim C8 amended: `create_escrow` performs no validation of its
parameters — for every amount (positive or not) and every pair of
timelocks (ordered or not), it succeeds whenever the maker is authorized
and the maker's token balance covers the amount, returning `"escrow_"` and
persisting the record and the `Active` state.  No `InvalidParameters`
failure exists in the code. -/
theorem create_escrow_unvalidated (auths : Addr → Bool) (this : Addr)
    (w : World) (maker taker token : Addr) (amount : Int) (hashlock : String)
    (s e : Nat) (hauth : auths maker = true)
    (hbal : ¬ (w.tokens token).balances maker < amount) :
    returnedId (create_escrow auths this w maker taker token amount
      hashlock s e) = some "escrow_" ∧
    storedRecord (create_escrow auths this w maker taker token amount
      hashlock s e) "escrow_" = some (some
        { maker := maker, taker := taker, token := token, amount := amount,
          hashlock := hashlock, timelock_start := s, timelock_end := e }) ∧
    storedState (create_escrow auths this w maker taker token amount
      hashlock s e) "escrow_" = some (some .Active) := by
  unfold create_escrow generate_escrow_id Token.transfer
  rw [hauth]
  simp only [Bool.not_true, Bool.false_eq_true, if_false, if_neg hbal]
  exact ⟨rfl, rfl, rfl⟩

/-- Witness for the amended C8 at `amount = 0`, `start = 5 > end = 3`. -/
theorem create_escrow_unvalidated_witness :
    allAuth 1 = true ∧
    ¬ (world0.tokens 3).balances 1 < (0 : Int) ∧
    returnedId (create_escrow allAuth 99 world0 1 2 3 0 "h" 5 3) =
      some "escrow_" ∧
    storedRecord (create_escrow allAuth 99 world0 1 2 3 0 "h" 5 3)
      "escrow_" = some (some
        { maker := 1, taker := 2, token := 3, amount := 0, hashlock := "h",
          timelock_start := 5, timelock_end := 3 }) ∧
    storedState (create_escrow allAuth 99 world0 1 2 3 0 "h" 5 3)
      "escrow_" = some (some .Active) := by
  have hth := create_escrow_unvalidated allAuth 99 world0 1 2 3 0 "h" 5 3
    rfl (by decide)
  exact ⟨rfl, by decide, hth.1, hth.2.1, hth.2.2⟩

/-! ### Claim C2: transfer failure leaves the escrow untouched -/

/-- Claim C2: when every precondition of `withdraw` (escrow present,
`Active`, inside the window, correct secret) or of `cancel` (escrow
present, `Active`, window expired, maker authorized) holds but the token
transfer out of contract custody fails for insufficient balance, the
invocation aborts with `transferFailed`: the observed world is exactly the
pre-state — the status is still whatever it was (here `Active`), the
record is untouched and no event has been appended.  The checks all run
before the transfer, and the status write and event append sit after it. -/
theorem transfer_failure_atomic (auths : Addr → Bool) (this : Addr) (t : Nat)
    (w : World) (escrow_id secret : String) (imm : Immutables) :
    (w.swap.escrows escrow_id = some imm →
     w.swap.states escrow_id = some .Active →
     outside_timelock_window imm t = false →
     verify_hashlock imm.hashlock secret = true →
     (w.tokens imm.token).balances this < imm.amount →
     execWithdraw auths this t w escrow_id secret =
       (w, .error (.transferFailed .InsufficientBalance))) ∧
    (w.swap.escrows escrow_id = some imm →
     w.swap.states escrow_id = some .Active →
     cancel_timelock_not_expired imm t = false →
     auths imm.maker = true →
     (w.tokens imm.token).balances this < imm.amount →
     execCancel auths this t w escrow_id =
       (w, .error (.transferFailed .InsufficientBalance))) := by
  constructor
  · intro h1 h2 h3 h4 hbal
    unfold execWithdraw withdraw Token.transfer
    simp [h1, h2, h3, h4, hbal]
  · intro h1 h2 h3 h4 hbal
    unfold execCancel cancel Token.transfer
    simp [h1, h2, h3, h4, hbal]

/-- Witness for C2 on `worldPoor` (escrow `imm0` active, contract custody
address 99 holds nothing): both a `withdraw` at `t = 7` with the correct
secret and a `cancel` at `t = 20` by the authorized maker abort with
`transferFailed` and leave the world exactly as it was. -/
theorem transfer_failure_atomic_witness :
    worldPoor.swap.escrows "esc" = some imm0 ∧
    worldPoor.swap.states "esc" = some EscrowState.Active ∧
    outside_timelock_window imm0 7 = false ∧
    verify_hashlock imm0.hashlock "s3cret" = true ∧
    (worldPoor.tokens imm0.token).balances 99 < imm0.amount ∧
    cancel_timelock_not_expired imm0 20 = false ∧
    allAuth imm0.maker = true ∧
    execWithdraw allAuth 99 7 worldPoor "esc" "s3cret" =
      (worldPoor, .error (.transferFailed .InsufficientBalance)) ∧
    execCancel allAuth 99 20 worldPoor "esc" =
      (worldPoor, .error (.transferFailed .InsufficientBalance)) := by
  refine ⟨rfl, rfl, by decide, by decide, by decide, by decide, rfl, ?_, ?_⟩
  · exact (transfer_failure_atomic allAuth 99 7 worldPoor "esc" "s3cret" imm0).1
      rfl rfl (by decide) (by decide) (by decide)
  · exact (transfer_failure_atomic allAuth 99 20 worldPoor "esc" "s3cret" imm0).2
      rfl rfl (by decide) rfl (by decide)

/-! ### Claim C10: `withdraw` performs no authentication -/

/-- Claim C10: `withdraw` never consults the authorization environment —
its result is identical under any two environments, including one in which
no address at all is authorized — and whenever the escrow is `Active`,
the time is inside the window, the secret matches and custody can pay,
the call succeeds and moves `amount` from the contract address to the
taker stored in the record (crediting `imm.taker`, debiting `this`),
marking the escrow `Withdrawn` and publishing `escrow_withdrawn` to the
stored taker.  No property of any invoker appears anywhere. -/
theorem withdraw_ignores_invoker (auths auths' : Addr → Bool) (this : Addr)
    (t : Nat) (w : World) (escrow_id secret : String) (imm : Immutables)
    (h1 : w.swap.escrows escrow_id = some imm)
    (h2 : w.swap.states escrow_id = some .Active)
    (h3 : outside_timelock_window imm t = false)
    (h4 : verify_hashlock imm.hashlock secret = true)
    (h5 : ¬ (w.tokens imm.token).balances this < imm.amount) :
    withdraw auths this t w escrow_id secret =
      withdraw auths' this t w escrow_id secret ∧
    withdraw auths this t w escrow_id secret =
      .ok ({ swap :=
               { escrows := w.swap.escrows,
                 states := fun k =>
                   if k = escrow_id then some .Withdrawn else w.swap.states k },
             tokens := fun a =>
               if a = imm.token then
                 { balances := fun x =>
                     if x = imm.taker then
                       (w.tokens imm.token).balances imm.taker + imm.amount
                     else if x = this then
                       (w.tokens imm.token).balances this - imm.amount
                     else (w.tokens imm.token).balances x,
                   totalSupply := (w.tokens imm.token).totalSupply }
               else w.tokens a,
             events := w.events ++
               [.escrow_withdrawn escrow_id imm.taker imm.amount secret] },
           true) := by
  constructor
  · rfl
  · unfold withdraw Token.transfer
    simp [h1, h2, h3, h4, h5]

/-- Witness for C10 on `worldActive` at `t = 7` with the correct secret:
the result is the same under the all-authorized and the nobody-authorized
environments, and the call succeeds crediting taker 2. -/
theorem withdraw_ignores_invoker_witness :
    worldActive.swap.escrows "esc" = some imm0 ∧
    worldActive.swap.states "esc" = some EscrowState.Active ∧
    outside_timelock_window imm0 7 = false ∧
    verify_hashlock imm0.hashlock "s3cret" = true ∧
    ¬ (worldActive.tokens imm0.token).balances 99 < imm0.amount ∧
    withdraw allAuth 99 7 worldActive "esc" "s3cret" =
      withdraw noAuth 99 7 worldActive "esc" "s3cret" ∧
    withdraw allAuth 99 7 worldActive "esc" "s3cret" =
      .ok ({ swap :=
               { escrows := worldActive.swap.escrows,
                 states := fun k =>
                   if k = "esc" then some .Withdrawn
                   else worldActive.swap.states k },
             tokens := fun a =>
               if a = imm0.token then
                 { balances := fun x =>
                     if x = imm0.taker then
                       (worldActive.tokens imm0.token).balances imm0.taker +
                         imm0.amount
                     else if x = 99 then
                       (worldActive.tokens imm0.token).balances 99 -
                         imm0.amount
                     else (worldActive.tokens imm0.token).balances x,
                   totalSupply :=
                     (worldActive.tokens imm0.token).totalSupply }
               else worldActive.tokens a,
             events := worldActive.events ++
               [.escrow_withdrawn "esc" imm0.taker imm0.amount "s3cret"] },
           true) := by
  have hth := withdraw_ignores_invoker allAuth noAuth 99 7 worldActive
    "esc" "s3cret" imm0 rfl rfl (by decide) (by decide) (by decide)
  exact ⟨rfl, rfl, by decide, by decide, by decide, hth.1, hth.2⟩

/-! ### Claim C1: the escrow status state machine -/

/-- Helper: a `withdraw` against a non-`Active` escrow aborts with
`notActive` (the guard at `lib.rs` lines 83-86 fires before any effect). -/
theorem withdraw_terminal_blocked {auths : Addr → Bool} {this : Addr}
    {t : Nat} {w : World} {escrow_id secret : String} {imm : Immutables}
    {s : EscrowState} (himm : w.swap.escrows escrow_id = some imm)
    (hs : w.swap.states escrow_id = some s) (hne : s ≠ .Active) :
    withdraw auths this t w escrow_id secret = .error .notActive := by
  unfold withdraw
  rw [himm, hs]
  dsimp only
  rw [if_pos hne]

/-- Helper: a `cancel` against a non-`Active` escrow aborts with
`notActive` (the guard at `lib.rs` lines 125-128 fires before any effect). -/
theorem cancel_terminal_blocked {auths : Addr → Bool} {this : Addr}
    {t : Nat} {w : World} {escrow_id : String} {imm : Immutables}
    {s : EscrowState} (himm : w.swap.escrows escrow_id = some imm)
    (hs : w.swap.states escrow_id = some s) (hne : s ≠ .Active) :
    cancel auths this t w escrow_id = .error .notActive := by
  unfold cancel
  rw [himm, hs]
  dsimp only
  rw [if_pos hne]

/-- Helper: inversion of a successful `withdraw` — it can only have started
from `Active`, leaves every stored record untouched, and ends `Withdrawn`. -/
theorem withdraw_ok_inversion {auths : Addr → Bool} {this : Addr} {t : Nat}
    {w : World} {escrow_id secret : String} {w2 : World} {b : Bool}
    (h : withdraw auths this t w escrow_id secret = .ok (w2, b)) :
    w.swap.states escrow_id = some .Active ∧
    w2.swap.escrows = w.swap.escrows ∧
    w2.swap.states escrow_id = some .Withdrawn := by
  unfold withdraw at h
  cases hE : w.swap.escrows escrow_id with
  | none => rw [hE] at h; cases h
  | some imm =>
  rw [hE] at h
  cases hS : w.swap.states escrow_id with
  | none => rw [hS] at h; cases h
  | some s =>
  rw [hS] at h
  dsimp only at h
  by_cases hA : s ≠ EscrowState.Active
  · rw [if_pos hA] at h; cases h
  · rw [if_neg hA] at h
    rw [not_ne_iff] at hA
    subst hA
    by_cases hW : outside_timelock_window imm t = true
    · rw [if_pos hW] at h; cases h
    · rw [if_neg hW] at h
      by_cases hV : (!verify_hashlock imm.hashlock secret) = true
      · rw [if_pos hV] at h; cases h
      · rw [if_neg hV] at h
        cases hT : Token.transfer (w.tokens imm.token) this imm.taker
            imm.amount with
        | error e => rw [hT] at h; cases h
        | ok tst =>
          rw [hT] at h
          simp only [Except.ok.injEq, Prod.mk.injEq] at h
          obtain ⟨hw2, hb⟩ := h
          subst hw2
          exact ⟨rfl, rfl, by simp⟩

/-- Helper: inversion of a successful `cancel` — it can only have started
from `Active`, leaves every stored record untouched, and ends `Cancelled`. -/
theorem cancel_ok_inversion {auths : Addr → Bool} {this : Addr} {t : Nat}
    {w : World} {escrow_id : String} {w2 : World} {b : Bool}
    (h : cancel auths this t w escrow_id = .ok (w2, b)) :
    w.swap.states escrow_id = some .Active ∧
    w2.swap.escrows = w.swap.escrows ∧
    w2.swap.states escrow_id = some .Cancelled := by
  unfold cancel at h
  cases hE : w.swap.escrows escrow_id with
  | none => rw [hE] at h; cases h
  | some imm =>
  rw [hE] at h
  cases hS : w.swap.states escrow_id with
  | none => rw [hS] at h; cases h
  | some s =>
  rw [hS] at h
  dsimp only at h
  by_cases hA : s ≠ EscrowState.Active
  · rw [if_pos hA] at h; cases h
  · rw [if_neg hA] at h
    rw [not_ne_iff] at hA
    subst hA
    by_cases hW : cancel_timelock_not_expired imm t = true
    · rw [if_pos hW] at h; cases h
    · rw [if_neg hW] at h
      by_cases hU : (!auths imm.maker) = true
      · rw [if_pos hU] at h; cases h
      · rw [if_neg hU] at h
        cases hT : Token.transfer (w.tokens imm.token) this imm.maker
            imm.amount with
        | error e => rw [hT] at h; cases h
        | ok tst =>
          rw [hT] at h
          simp only [Except.ok.injEq, Prod.mk.injEq] at h
          obtain ⟨hw2, hb⟩ := h
          subst hw2
          exact ⟨rfl, rfl, by simp⟩

/-- Claim C1: status transitions are only `Active → Withdrawn` (by a
successful `withdraw`) and `Active → Cancelled` (by a successful `cancel`),
the record is never modified by either; and terminal states are permanent:
against a `Withdrawn` or `Cancelled` escrow every `withdraw` or `cancel`
aborts with the `Escrow not active` failure and the transaction leaves the
whole world — record, status, token balances, events — exactly unchanged,
so no tokens move. -/
theorem escrow_state_monotonic (auths : Addr → Bool) (this : Addr) (t : Nat)
    (w : World) (escrow_id secret : String) :
    (∀ imm s, w.swap.escrows escrow_id = some imm →
      w.swap.states escrow_id = some s → s ≠ EscrowState.Active →
      execWithdraw auths this t w escrow_id secret =
        (w, .error .notActive) ∧
      execCancel auths this t w escrow_id = (w, .error .notActive)) ∧
    (∀ w' b, execWithdraw auths this t w escrow_id secret = (w', .ok b) →
      w.swap.states escrow_id = some .Active ∧
      w'.swap.escrows = w.swap.escrows ∧
      w'.swap.states escrow_id = some .Withdrawn) ∧
    (∀ w' b, execCancel auths this t w escrow_id = (w', .ok b) →
      w.swap.states escrow_id = some .Active ∧
      w'.swap.escrows = w.swap.escrows ∧
      w'.swap.states escrow_id = some .Cancelled) := by
  refine ⟨?_, ?_, ?_⟩
  · intro imm s himm hs hne
    constructor
    · unfold execWithdraw
      rw [withdraw_terminal_blocked himm hs hne]
    · unfold execCancel
      rw [cancel_terminal_blocked himm hs hne]
  · intro w' b h
    unfold execWithdraw at h
    cases hres : withdraw auths this t w escrow_id secret with
    | error e => rw [hres] at h; simp at h
    | ok p =>
      obtain ⟨w2, b2⟩ := p
      rw [hres] at h
      simp only [Prod.mk.injEq] at h
      obtain ⟨hw, hb⟩ := h
      subst hw
      exact withdraw_ok_inversion hres
  · intro w' b h
    unfold execCancel at h
    cases hres : cancel auths this t w escrow_id with
    | error e => rw [hres] at h; simp at h
    | ok p =>
      obtain ⟨w2, b2⟩ := p
      rw [hres] at h
      simp only [Prod.mk.injEq] at h
      obtain ⟨hw, hb⟩ := h
      subst hw
      exact cancel_ok_inversion hres

/-- Witness for C1 on `worldTerminal` (escrow `imm0` already `Withdrawn`):
a later `withdraw` with the correct secret inside the window and a later
`cancel` after expiry by the authorized maker both abort with `notActive`
and return the world unchanged. -/
theorem escrow_state_monotonic_witness :
    worldTerminal.swap.escrows "esc" = some imm0 ∧
    worldTerminal.swap.states "esc" = some EscrowState.Withdrawn ∧
    EscrowState.Withdrawn ≠ EscrowState.Active ∧
    execWithdraw allAuth 99 7 worldTerminal "esc" "s3cret" =
      (worldTerminal, .error .notActive) ∧
    execCancel allAuth 99 7 worldTerminal "esc" =
      (worldTerminal, .error .notActive) := by
  have hth := (escrow_state_monotonic allAuth 99 7 worldTerminal "esc"
    "s3cret").1 imm0 .Withdrawn rfl rfl (by decide)
  exact ⟨rfl, rfl, by decide, hth.1, hth.2⟩
